import Mathlib

/-!
Shallow embedding of `ext/ruby_memprofiler_pprof/vendor/upb/python/pb_unit_tests/descriptor_test_wrapper.py`.

The script imports the external module `descriptor_test`, sets the attribute
`__unittest_expecting_failure__ = True` on nineteen test methods, sets
`__unittest_skip__ = True` on the class `DescriptorTest`, and, when invoked as
the top-level program, calls `unittest.main(module=descriptor_test, verbosity=2)`.

We model the imported module as a finite attribute store: a module holds an
association list of named classes, a class holds its own attributes and an
association list of named methods, and a method holds its attributes.  Marker
attributes are Boolean valued, matching the only values the script ever writes.
Attribute access that fails (a listed class or method missing from the module)
is an `AttributeError`, modelled with `Except String`.
-/

set_option autoImplicit false

namespace DescriptorTestWrapper

/-- Python attribute lookup on an attribute table: the value bound to the first
occurrence of the key, or `none` when the key is absent. -/
def getAssoc {α : Type} : List (String × α) → String → Option α
  | [], _ => none
  | (k', v) :: rest, k => if k' = k then some v else getAssoc rest k

/-- Python attribute assignment on an attribute table: rebind the first
occurrence of the key in place, or append a fresh binding. -/
def setAssoc {α : Type} : List (String × α) → String → α → List (String × α)
  | [], k, v => [(k, v)]
  | (k', v') :: rest, k, v =>
    if k' = k then (k, v) :: rest else (k', v') :: setAssoc rest k v

/-- A Python test method: a function object carrying Boolean marker attributes
such as `__unittest_expecting_failure__`. -/
structure PyMethod where
  attrs : List (String × Bool)
deriving DecidableEq

/-- A Python test class: its own Boolean marker attributes (such as
`__unittest_skip__`) and its named test methods. -/
structure PyClass where
  attrs : List (String × Bool)
  methods : List (String × PyMethod)
deriving DecidableEq

/-- The imported `descriptor_test` module: its named test classes. -/
structure PyModule where
  classes : List (String × PyClass)
deriving DecidableEq

/-- The message of the `AttributeError` raised when `name` is missing. -/
def attributeError (name : String) : String :=
  "AttributeError: " ++ name

/-- `module.cls.meth.attr = v`: the effect of one expected-failure assignment
line of the script.  Raises (returns `Except.error`) when the class or the
method does not exist on the module, exactly as the Python attribute chain
does. -/
def setMethodAttr (m : PyModule) (c meth attr : String) (v : Bool) :
    Except String PyModule :=
  match getAssoc m.classes c with
  | none => .error (attributeError c)
  | some cls =>
    match getAssoc cls.methods meth with
    | none => .error (attributeError meth)
    | some f =>
      .ok ⟨setAssoc m.classes c
        { cls with methods := setAssoc cls.methods meth ⟨setAssoc f.attrs attr v⟩ }⟩

/-- `module.cls.attr = v`: the effect of the skip assignment line of the
script.  Raises when the class does not exist on the module. -/
def setClassAttr (m : PyModule) (c attr : String) (v : Bool) :
    Except String PyModule :=
  match getAssoc m.classes c with
  | none => .error (attributeError c)
  | some cls =>
    .ok ⟨setAssoc m.classes c { cls with attrs := setAssoc cls.attrs attr v }⟩

/-- The names of the classes present on the module. -/
def classNames (m : PyModule) : List String :=
  m.classes.map Prod.fst

/-- The names of the methods present on class `c` of the module. -/
def methodNames (m : PyModule) (c : String) : List String :=
  match getAssoc m.classes c with
  | none => []
  | some cls => cls.methods.map Prod.fst

/-- The value of attribute `a` on class `c`, `none` when class or attribute is
absent. -/
def classAttr (m : PyModule) (c a : String) : Option Bool :=
  match getAssoc m.classes c with
  | none => none
  | some cls => getAssoc cls.attrs a

/-- The value of attribute `a` on method `meth` of class `c`, `none` when
class, method or attribute is absent. -/
def methodAttr (m : PyModule) (c meth a : String) : Option Bool :=
  match getAssoc m.classes c with
  | none => none
  | some cls =>
    match getAssoc cls.methods meth with
    | none => none
    | some f => getAssoc f.attrs a

/-- Whether class `c` exists on the module. -/
def hasClass (m : PyModule) (c : String) : Bool :=
  (getAssoc m.classes c).isSome

/-- Whether method `meth` exists on class `c` of the module. -/
def hasMethod (m : PyModule) (c meth : String) : Bool :=
  match getAssoc m.classes c with
  | none => false
  | some cls => (getAssoc cls.methods meth).isSome

/-! ### Association list lemmas -/

theorem getAssoc_setAssoc_self {α : Type} (l : List (String × α)) (k : String) (v : α) :
    getAssoc (setAssoc l k v) k = some v := by
  induction l with
  | nil => simp [setAssoc, getAssoc]
  | cons p rest ih =>
    obtain ⟨k', v'⟩ := p
    by_cases h : k' = k
    · simp [setAssoc, h, getAssoc]
    · simp [setAssoc, h, getAssoc, ih]

theorem getAssoc_setAssoc_ne {α : Type} (l : List (String × α)) {k j : String} (v : α)
    (h : j ≠ k) : getAssoc (setAssoc l k v) j = getAssoc l j := by
  induction l with
  | nil =>
    have hne : k ≠ j := Ne.symm h
    simp [setAssoc, getAssoc, hne]
  | cons p rest ih =>
    obtain ⟨k', v'⟩ := p
    by_cases hk : k' = k
    · subst hk
      have hne : k' ≠ j := Ne.symm h
      simp [setAssoc, getAssoc, hne]
    · by_cases hj : k' = j
      · simp [setAssoc, getAssoc, hk, hj, h]
      · simp [setAssoc, getAssoc, hk, hj, ih]

theorem setAssoc_of_getAssoc {α : Type} {l : List (String × α)} {k : String} {v : α}
    (h : getAssoc l k = some v) : setAssoc l k v = l := by
  induction l with
  | nil => simp [getAssoc] at h
  | cons p rest ih =>
    obtain ⟨k', v'⟩ := p
    by_cases hk : k' = k
    · subst hk
      simp [getAssoc] at h
      simp [setAssoc, h]
    · simp [getAssoc, hk] at h
      simp [setAssoc, hk, ih h]

theorem setAssoc_map_fst {α : Type} {l : List (String × α)} {k : String} {w : α} (v : α)
    (h : getAssoc l k = some w) :
    (setAssoc l k v).map Prod.fst = l.map Prod.fst := by
  induction l with
  | nil => simp [getAssoc] at h
  | cons p rest ih =>
    obtain ⟨k', v'⟩ := p
    by_cases hk : k' = k
    · subst hk
      simp [setAssoc]
    · simp [getAssoc, hk] at h
      simp [setAssoc, hk, ih h]

theorem getAssoc_setAssoc_isSome {α : Type} {l : List (String × α)} {k : String} {w : α}
    (v : α) (j : String) (h : getAssoc l k = some w) :
    (getAssoc (setAssoc l k v) j).isSome = (getAssoc l j).isSome := by
  by_cases hj : j = k
  · subst hj
    simp [getAssoc_setAssoc_self, h]
  · rw [getAssoc_setAssoc_ne l v hj]

/-! ### The script -/

/-- One top-level statement of the wrapper script: an expected-failure marker
assignment `descriptor_test.cls.meth.__unittest_expecting_failure__ = True`, or
the skip marker assignment `descriptor_test.cls.__unittest_skip__ = True`. -/
inductive Stmt where
  | setEF (cls meth : String)
  | setSkip (cls : String)
deriving DecidableEq

/-- The marker attribute `__unittest_expecting_failure__`. -/
def markerEF : String := "__unittest_expecting_failure__"

/-- The marker attribute `__unittest_skip__`. -/
def markerSkip : String := "__unittest_skip__"

/-- The nineteen (class, method) pairs the script marks as expected failures,
in statement order (lines 29-47 of the source). -/
def expectedFailureList : List (String × String) := [
  ("DescriptorCopyToProtoTest", "testCopyToProto_TypeError"),
  ("GeneratedDescriptorTest", "testDescriptor"),
  ("MakeDescriptorTest", "testCamelcaseName"),
  ("MakeDescriptorTest", "testJsonName"),
  ("NewDescriptorTest", "testAggregateOptions"),
  ("NewDescriptorTest", "testComplexExtensionOptions"),
  ("NewDescriptorTest", "testContainingServiceFixups"),
  ("NewDescriptorTest", "testContainingTypeFixups"),
  ("NewDescriptorTest", "testCustomOptionsCopyTo"),
  ("NewDescriptorTest", "testDefault"),
  ("NewDescriptorTest", "testDifferentCustomOptionTypes"),
  ("NewDescriptorTest", "testEnumFixups"),
  ("NewDescriptorTest", "testEnumValueName"),
  ("NewDescriptorTest", "testFileDescriptor"),
  ("NewDescriptorTest", "testFileDescriptorReferences"),
  ("NewDescriptorTest", "testGetOptions"),
  ("NewDescriptorTest", "testImmutableCppDescriptor"),
  ("NewDescriptorTest", "testNestedOptions"),
  ("NewDescriptorTest", "testSimpleCustomOptions")
]

/-- The class the script skips entirely (line 55 of the source). -/
def skipClassName : String := "DescriptorTest"

/-- The patching statements of the script, in source order: the nineteen
expected-failure assignments followed by the skip assignment. -/
def script : List Stmt :=
  expectedFailureList.map (fun p => Stmt.setEF p.1 p.2) ++ [Stmt.setSkip skipClassName]

/-- Execute one statement on the module state. -/
def execStmt (m : PyModule) : Stmt → Except String PyModule
  | .setEF c meth => setMethodAttr m c meth markerEF true
  | .setSkip c => setClassAttr m c markerSkip true

/-- Execute a list of statements in order, stopping at the first raised
`AttributeError`. -/
def execStmts (m : PyModule) : List Stmt → Except String PyModule
  | [] => .ok m
  | s :: rest =>
    match execStmt m s with
    | .error e => .error e
    | .ok m' => execStmts m' rest

/-- The whole patching phase of the script (lines 29-55): every marker
assignment, in source order. -/
def applyDispositions (m : PyModule) : Except String PyModule :=
  execStmts m script

/-- An observable event of a script run: one marker assignment, or the start of
the test runner with its verbosity. -/
inductive Event where
  | setEF (cls meth : String)
  | setSkip (cls : String)
  | runTests (verbosity : Nat)
deriving DecidableEq

/-- The event a statement emits when it executes. -/
def stmtEvent : Stmt → Event
  | .setEF c meth => .setEF c meth
  | .setSkip c => .setSkip c

/-- Whether an event is the start of the test runner. -/
def isRunEvent : Event → Bool
  | .runTests _ => true
  | _ => false

/-- Execute statements in order, recording the event of each statement that
actually executes; the first raised error aborts the run. -/
def execStmtsTr (m : PyModule) : List Stmt → Except String (PyModule × List Event)
  | [] => .ok (m, [])
  | s :: rest =>
    match execStmt m s with
    | .error e => .error e
    | .ok m' =>
      match execStmtsTr m' rest with
      | .error e => .error e
      | .ok (m'', evs) => .ok (m'', stmtEvent s :: evs)

/-- The events of a complete, successful patching phase. -/
def dispositionEvents : List Event :=
  script.map stmtEvent

/-- The whole script (lines 29-58): patch the module, then, when invoked as
the top-level program (`isMain`), call
`unittest.main(module=descriptor_test, verbosity=2)` on the patched module.
`runner` abstracts `unittest.main`: from the module object and the verbosity it
produces the process exit code.  The result carries the final module state, the
event trace, and the exit code when the runner ran. -/
def mainGuard (runner : PyModule → Nat → Nat) (isMain : Bool) (m : PyModule) :
    Except String (PyModule × List Event × Option Nat) :=
  match execStmtsTr m script with
  | .error e => .error e
  | .ok (m', evs) =>
    if isMain then
      .ok (m', evs ++ [Event.runTests 2], some (runner m' 2))
    else
      .ok (m', evs, none)

/-- Whether the target of a statement exists on the module, so that the
statement's attribute chain does not raise. -/
def stmtOk (m : PyModule) : Stmt → Bool
  | .setEF c meth => hasMethod m c meth
  | .setSkip c => hasClass m c

/-- The postcondition of a statement: its marker stands at `True`. -/
def stmtHolds (m : PyModule) : Stmt → Prop
  | .setEF c meth => methodAttr m c meth markerEF = some true
  | .setSkip c => classAttr m c markerSkip = some true

/-- Whether a statement writes method attribute `(c, meth, a)`. -/
def writesMethodAttr (s : Stmt) (c meth a : String) : Prop :=
  match s with
  | .setEF c0 m0 => c = c0 ∧ meth = m0 ∧ a = markerEF
  | .setSkip _ => False

/-- Whether a statement writes class attribute `(c, a)`. -/
def writesClassAttr (s : Stmt) (c a : String) : Prop :=
  match s with
  | .setEF _ _ => False
  | .setSkip c0 => c = c0 ∧ a = markerSkip

/-! ### Lemmas about a single method attribute assignment -/

theorem setMethodAttr_ok {m m' : PyModule} {c meth a : String} {v : Bool}
    (h : setMethodAttr m c meth a v = Except.ok m') :
    ∃ cls f, getAssoc m.classes c = some cls ∧ getAssoc cls.methods meth = some f ∧
      m' = ⟨setAssoc m.classes c
        { cls with methods := setAssoc cls.methods meth ⟨setAssoc f.attrs a v⟩ }⟩ := by
  unfold setMethodAttr at h
  split at h
  · simp at h
  next cls hc =>
    split at h
    · simp at h
    next f hm =>
      exact ⟨cls, f, hc, hm, (Except.ok.inj h).symm⟩

theorem setMethodAttr_methodAttr_self {m m' : PyModule} {c meth a : String} {v : Bool}
    (h : setMethodAttr m c meth a v = Except.ok m') :
    methodAttr m' c meth a = some v := by
  obtain ⟨cls, f, hc, hm, rfl⟩ := setMethodAttr_ok h
  simp [methodAttr, getAssoc_setAssoc_self]

theorem setMethodAttr_methodAttr_frame {m m' : PyModule} {c meth a : String} {v : Bool}
    (h : setMethodAttr m c meth a v = Except.ok m')
    (c' meth' a' : String) (hne : ¬(c' = c ∧ meth' = meth ∧ a' = a)) :
    methodAttr m' c' meth' a' = methodAttr m c' meth' a' := by
  obtain ⟨cls, f, hc, hm, rfl⟩ := setMethodAttr_ok h
  by_cases hcc : c' = c
  · subst hcc
    by_cases hmm : meth' = meth
    · subst hmm
      have haa : a' ≠ a := fun hh => hne ⟨rfl, rfl, hh⟩
      simp [methodAttr, getAssoc_setAssoc_self, hc, hm, getAssoc_setAssoc_ne _ _ haa]
    · simp [methodAttr, getAssoc_setAssoc_self, hc, getAssoc_setAssoc_ne _ _ hmm]
  · simp [methodAttr, getAssoc_setAssoc_ne _ _ hcc]

theorem setMethodAttr_classAttr {m m' : PyModule} {c meth a : String} {v : Bool}
    (h : setMethodAttr m c meth a v = Except.ok m') (c' a' : String) :
    classAttr m' c' a' = classAttr m c' a' := by
  obtain ⟨cls, f, hc, hm, rfl⟩ := setMethodAttr_ok h
  by_cases hcc : c' = c
  · subst hcc
    simp [classAttr, getAssoc_setAssoc_self, hc]
  · simp [classAttr, getAssoc_setAssoc_ne _ _ hcc]

theorem setMethodAttr_classNames {m m' : PyModule} {c meth a : String} {v : Bool}
    (h : setMethodAttr m c meth a v = Except.ok m') :
    classNames m' = classNames m := by
  obtain ⟨cls, f, hc, hm, rfl⟩ := setMethodAttr_ok h
  simp [classNames, setAssoc_map_fst _ hc]

theorem setMethodAttr_methodNames {m m' : PyModule} {c meth a : String} {v : Bool}
    (h : setMethodAttr m c meth a v = Except.ok m') (c' : String) :
    methodNames m' c' = methodNames m c' := by
  obtain ⟨cls, f, hc, hm, rfl⟩ := setMethodAttr_ok h
  by_cases hcc : c' = c
  · subst hcc
    simp [methodNames, getAssoc_setAssoc_self, hc, setAssoc_map_fst _ hm]
  · simp [methodNames, getAssoc_setAssoc_ne _ _ hcc]

theorem setMethodAttr_hasClass {m m' : PyModule} {c meth a : String} {v : Bool}
    (h : setMethodAttr m c meth a v = Except.ok m') (c' : String) :
    hasClass m' c' = hasClass m c' := by
  obtain ⟨cls, f, hc, hm, rfl⟩ := setMethodAttr_ok h
  simp [hasClass, getAssoc_setAssoc_isSome _ c' hc]

theorem setMethodAttr_hasMethod {m m' : PyModule} {c meth a : String} {v : Bool}
    (h : setMethodAttr m c meth a v = Except.ok m') (c' meth' : String) :
    hasMethod m' c' meth' = hasMethod m c' meth' := by
  obtain ⟨cls, f, hc, hm, rfl⟩ := setMethodAttr_ok h
  by_cases hcc : c' = c
  · subst hcc
    simp [hasMethod, getAssoc_setAssoc_self, hc, getAssoc_setAssoc_isSome _ meth' hm]
  · simp [hasMethod, getAssoc_setAssoc_ne _ _ hcc]

theorem setMethodAttr_hasMethod_of_ok {m m' : PyModule} {c meth a : String} {v : Bool}
    (h : setMethodAttr m c meth a v = Except.ok m') :
    hasMethod m c meth = true := by
  obtain ⟨cls, f, hc, hm, rfl⟩ := setMethodAttr_ok h
  simp [hasMethod, hc, hm]

theorem setMethodAttr_error_of_missing {m : PyModule} {c meth : String} (a : String) (v : Bool)
    (h : hasMethod m c meth = false) :
    ∃ e, setMethodAttr m c meth a v = Except.error e := by
  cases hc : getAssoc m.classes c with
  | none =>
    refine ⟨attributeError c, ?_⟩
    unfold setMethodAttr
    rw [hc]
  | some cls =>
    simp only [hasMethod, hc] at h
    cases hm : getAssoc cls.methods meth with
    | none =>
      refine ⟨attributeError meth, ?_⟩
      simp only [setMethodAttr, hc, hm]
    | some f =>
      rw [hm] at h
      simp at h

theorem setMethodAttr_id {m : PyModule} {c meth a : String} {v : Bool}
    (h : methodAttr m c meth a = some v) :
    setMethodAttr m c meth a v = Except.ok m := by
  unfold methodAttr at h
  split at h
  · simp at h
  next cls hc =>
    split at h
    · simp at h
    next f hm =>
      simp only [setMethodAttr, hc, hm]
      rw [setAssoc_of_getAssoc h]
      have hf : (⟨f.attrs⟩ : PyMethod) = f := rfl
      rw [hf, setAssoc_of_getAssoc hm]
      have hcls : ({ cls with methods := cls.methods } : PyClass) = cls := rfl
      rw [hcls, setAssoc_of_getAssoc hc]

/-! ### Lemmas about a single class attribute assignment -/

theorem setClassAttr_ok {m m' : PyModule} {c a : String} {v : Bool}
    (h : setClassAttr m c a v = Except.ok m') :
    ∃ cls, getAssoc m.classes c = some cls ∧
      m' = ⟨setAssoc m.classes c { cls with attrs := setAssoc cls.attrs a v }⟩ := by
  unfold setClassAttr at h
  split at h
  · simp at h
  next cls hc =>
    exact ⟨cls, hc, (Except.ok.inj h).symm⟩

theorem setClassAttr_classAttr_self {m m' : PyModule} {c a : String} {v : Bool}
    (h : setClassAttr m c a v = Except.ok m') :
    classAttr m' c a = some v := by
  obtain ⟨cls, hc, rfl⟩ := setClassAttr_ok h
  simp [classAttr, getAssoc_setAssoc_self]

theorem setClassAttr_classAttr_frame {m m' : PyModule} {c a : String} {v : Bool}
    (h : setClassAttr m c a v = Except.ok m')
    (c' a' : String) (hne : ¬(c' = c ∧ a' = a)) :
    classAttr m' c' a' = classAttr m c' a' := by
  obtain ⟨cls, hc, rfl⟩ := setClassAttr_ok h
  by_cases hcc : c' = c
  · subst hcc
    have haa : a' ≠ a := fun hh => hne ⟨rfl, hh⟩
    simp [classAttr, getAssoc_setAssoc_self, hc, getAssoc_setAssoc_ne _ _ haa]
  · simp [classAttr, getAssoc_setAssoc_ne _ _ hcc]

theorem setClassAttr_methodAttr {m m' : PyModule} {c a : String} {v : Bool}
    (h : setClassAttr m c a v = Except.ok m') (c' meth' a' : String) :
    methodAttr m' c' meth' a' = methodAttr m c' meth' a' := by
  obtain ⟨cls, hc, rfl⟩ := setClassAttr_ok h
  by_cases hcc : c' = c
  · subst hcc
    simp [methodAttr, getAssoc_setAssoc_self, hc]
  · simp [methodAttr, getAssoc_setAssoc_ne _ _ hcc]

theorem setClassAttr_classNames {m m' : PyModule} {c a : String} {v : Bool}
    (h : setClassAttr m c a v = Except.ok m') :
    classNames m' = classNames m := by
  obtain ⟨cls, hc, rfl⟩ := setClassAttr_ok h
  simp [classNames, setAssoc_map_fst _ hc]

theorem setClassAttr_methodNames {m m' : PyModule} {c a : String} {v : Bool}
    (h : setClassAttr m c a v = Except.ok m') (c' : String) :
    methodNames m' c' = methodNames m c' := by
  obtain ⟨cls, hc, rfl⟩ := setClassAttr_ok h
  by_cases hcc : c' = c
  · subst hcc
    simp [methodNames, getAssoc_setAssoc_self, hc]
  · simp [methodNames, getAssoc_setAssoc_ne _ _ hcc]

theorem setClassAttr_hasClass {m m' : PyModule} {c a : String} {v : Bool}
    (h : setClassAttr m c a v = Except.ok m') (c' : String) :
    hasClass m' c' = hasClass m c' := by
  obtain ⟨cls, hc, rfl⟩ := setClassAttr_ok h
  simp [hasClass, getAssoc_setAssoc_isSome _ c' hc]

theorem setClassAttr_hasMethod {m m' : PyModule} {c a : String} {v : Bool}
    (h : setClassAttr m c a v = Except.ok m') (c' meth' : String) :
    hasMethod m' c' meth' = hasMethod m c' meth' := by
  obtain ⟨cls, hc, rfl⟩ := setClassAttr_ok h
  by_cases hcc : c' = c
  · subst hcc
    simp [hasMethod, getAssoc_setAssoc_self, hc]
  · simp [hasMethod, getAssoc_setAssoc_ne _ _ hcc]

theorem setClassAttr_hasClass_of_ok {m m' : PyModule} {c a : String} {v : Bool}
    (h : setClassAttr m c a v = Except.ok m') :
    hasClass m c = true := by
  obtain ⟨cls, hc, rfl⟩ := setClassAttr_ok h
  simp [hasClass, hc]

theorem setClassAttr_error_of_missing {m : PyModule} {c : String} (a : String) (v : Bool)
    (h : hasClass m c = false) :
    ∃ e, setClassAttr m c a v = Except.error e := by
  cases hc : getAssoc m.classes c with
  | none =>
    refine ⟨attributeError c, ?_⟩
    unfold setClassAttr
    rw [hc]
  | some cls =>
    simp [hasClass, hc] at h

theorem setClassAttr_id {m : PyModule} {c a : String} {v : Bool}
    (h : classAttr m c a = some v) :
    setClassAttr m c a v = Except.ok m := by
  unfold classAttr at h
  split at h
  · simp at h
  next cls hc =>
    simp only [setClassAttr, hc]
    rw [setAssoc_of_getAssoc h]
    have hcls : ({ cls with attrs := cls.attrs } : PyClass) = cls := rfl
    rw [hcls, setAssoc_of_getAssoc hc]

/-! ### Lemmas about one script statement -/

theorem execStmt_establishes {m m' : PyModule} {s : Stmt}
    (h : execStmt m s = Except.ok m') : stmtHolds m' s := by
  cases s with
  | setEF c meth => exact setMethodAttr_methodAttr_self h
  | setSkip c => exact setClassAttr_classAttr_self h

theorem execStmt_stmtOk_of_ok {m m' : PyModule} {s : Stmt}
    (h : execStmt m s = Except.ok m') : stmtOk m s = true := by
  cases s with
  | setEF c meth => exact setMethodAttr_hasMethod_of_ok h
  | setSkip c => exact setClassAttr_hasClass_of_ok h

theorem execStmt_error_of_missing {m : PyModule} {s : Stmt}
    (h : stmtOk m s = false) : ∃ e, execStmt m s = Except.error e := by
  cases s with
  | setEF c meth => exact setMethodAttr_error_of_missing markerEF true h
  | setSkip c => exact setClassAttr_error_of_missing markerSkip true h

theorem execStmt_stmtOk {m m' : PyModule} {s : Stmt}
    (h : execStmt m s = Except.ok m') (t : Stmt) : stmtOk m' t = stmtOk m t := by
  cases s with
  | setEF c meth =>
    cases t with
    | setEF c' meth' => exact setMethodAttr_hasMethod h c' meth'
    | setSkip c' => exact setMethodAttr_hasClass h c'
  | setSkip c =>
    cases t with
    | setEF c' meth' => exact setClassAttr_hasMethod h c' meth'
    | setSkip c' => exact setClassAttr_hasClass h c'

theorem execStmt_preserves_holds {m m' : PyModule} {s t : Stmt}
    (ht : stmtHolds m t) (h : execStmt m s = Except.ok m') : stmtHolds m' t := by
  cases s with
  | setEF c meth =>
    cases t with
    | setEF c' meth' =>
      by_cases hcc : c' = c ∧ meth' = meth
      · obtain ⟨h1, h2⟩ := hcc
        subst h1
        subst h2
        exact setMethodAttr_methodAttr_self h
      · have hfr := setMethodAttr_methodAttr_frame h c' meth' markerEF
          (fun hh => hcc ⟨hh.1, hh.2.1⟩)
        show methodAttr m' c' meth' markerEF = some true
        rw [hfr]
        exact ht
    | setSkip c' =>
      have hfr := setMethodAttr_classAttr h c' markerSkip
      show classAttr m' c' markerSkip = some true
      rw [hfr]
      exact ht
  | setSkip c =>
    cases t with
    | setEF c' meth' =>
      have hfr := setClassAttr_methodAttr h c' meth' markerEF
      show methodAttr m' c' meth' markerEF = some true
      rw [hfr]
      exact ht
    | setSkip c' =>
      by_cases hcc : c' = c
      · subst hcc
        exact setClassAttr_classAttr_self h
      · have hfr := setClassAttr_classAttr_frame h c' markerSkip (fun hh => hcc hh.1)
        show classAttr m' c' markerSkip = some true
        rw [hfr]
        exact ht

theorem execStmt_methodAttr_frame {m m' : PyModule} {s : Stmt} {c meth a : String}
    (h : execStmt m s = Except.ok m') (hw : ¬ writesMethodAttr s c meth a) :
    methodAttr m' c meth a = methodAttr m c meth a := by
  cases s with
  | setEF c0 m0 => exact setMethodAttr_methodAttr_frame h c meth a hw
  | setSkip c0 => exact setClassAttr_methodAttr h c meth a

theorem execStmt_classAttr_frame {m m' : PyModule} {s : Stmt} {c a : String}
    (h : execStmt m s = Except.ok m') (hw : ¬ writesClassAttr s c a) :
    classAttr m' c a = classAttr m c a := by
  cases s with
  | setEF c0 m0 => exact setMethodAttr_classAttr h c a
  | setSkip c0 => exact setClassAttr_classAttr_frame h c a hw

theorem execStmt_classNames {m m' : PyModule} {s : Stmt}
    (h : execStmt m s = Except.ok m') : classNames m' = classNames m := by
  cases s with
  | setEF c0 m0 => exact setMethodAttr_classNames h
  | setSkip c0 => exact setClassAttr_classNames h

theorem execStmt_methodNames {m m' : PyModule} {s : Stmt}
    (h : execStmt m s = Except.ok m') (c : String) :
    methodNames m' c = methodNames m c := by
  cases s with
  | setEF c0 m0 => exact setMethodAttr_methodNames h c
  | setSkip c0 => exact setClassAttr_methodNames h c

theorem execStmt_id {m : PyModule} {s : Stmt}
    (h : stmtHolds m s) : execStmt m s = Except.ok m := by
  cases s with
  | setEF c meth => exact setMethodAttr_id h
  | setSkip c => exact setClassAttr_id h

/-! ### Lemmas about statement sequences -/

theorem execStmts_classNames {m m' : PyModule} {ss : List Stmt}
    (h : execStmts m ss = Except.ok m') : classNames m' = classNames m := by
  induction ss generalizing m with
  | nil =>
    simp [execStmts] at h
    rw [h]
  | cons s rest ih =>
    unfold execStmts at h
    split at h
    next e he => simp at h
    next m1 he => exact (ih h).trans (execStmt_classNames he)

theorem execStmts_methodNames {m m' : PyModule} {ss : List Stmt}
    (h : execStmts m ss = Except.ok m') (c : String) :
    methodNames m' c = methodNames m c := by
  induction ss generalizing m with
  | nil =>
    simp [execStmts] at h
    rw [h]
  | cons s rest ih =>
    unfold execStmts at h
    split at h
    next e he => simp at h
    next m1 he => exact (ih h).trans (execStmt_methodNames he c)

theorem execStmts_preserves_holds {m m' : PyModule} {ss : List Stmt} {t : Stmt}
    (ht : stmtHolds m t) (h : execStmts m ss = Except.ok m') : stmtHolds m' t := by
  induction ss generalizing m with
  | nil =>
    simp [execStmts] at h
    rw [← h]
    exact ht
  | cons s rest ih =>
    unfold execStmts at h
    split at h
    next e he => simp at h
    next m1 he => exact ih (execStmt_preserves_holds ht he) h

theorem execStmts_establishes {m m' : PyModule} {ss : List Stmt}
    (h : execStmts m ss = Except.ok m') : ∀ s ∈ ss, stmtHolds m' s := by
  induction ss generalizing m with
  | nil => intro s hs; simp at hs
  | cons s rest ih =>
    intro t ht
    unfold execStmts at h
    split at h
    next e he => simp at h
    next m1 he =>
      rcases List.mem_cons.mp ht with h1 | h2
      · subst h1
        exact execStmts_preserves_holds (execStmt_establishes he) h
      · exact ih h t h2

theorem execStmts_ok_all {m m' : PyModule} {ss : List Stmt}
    (h : execStmts m ss = Except.ok m') : ∀ s ∈ ss, stmtOk m s = true := by
  induction ss generalizing m with
  | nil => intro s hs; simp at hs
  | cons s rest ih =>
    intro t ht
    unfold execStmts at h
    split at h
    next e he => simp at h
    next m1 he =>
      rcases List.mem_cons.mp ht with h1 | h2
      · subst h1
        exact execStmt_stmtOk_of_ok he
      · rw [← execStmt_stmtOk he t]
        exact ih h t h2

theorem execStmts_methodAttr_frame {m m' : PyModule} {ss : List Stmt} {c meth a : String}
    (h : execStmts m ss = Except.ok m')
    (hw : ∀ s ∈ ss, ¬ writesMethodAttr s c meth a) :
    methodAttr m' c meth a = methodAttr m c meth a := by
  induction ss generalizing m with
  | nil =>
    simp [execStmts] at h
    rw [h]
  | cons s rest ih =>
    unfold execStmts at h
    split at h
    next e he => simp at h
    next m1 he =>
      have h1 := ih h (fun t ht => hw t (List.mem_cons_of_mem s ht))
      have h2 := execStmt_methodAttr_frame he (hw s (List.mem_cons_self s rest))
      exact h1.trans h2

theorem execStmts_classAttr_frame {m m' : PyModule} {ss : List Stmt} {c a : String}
    (h : execStmts m ss = Except.ok m')
    (hw : ∀ s ∈ ss, ¬ writesClassAttr s c a) :
    classAttr m' c a = classAttr m c a := by
  induction ss generalizing m with
  | nil =>
    simp [execStmts] at h
    rw [h]
  | cons s rest ih =>
    unfold execStmts at h
    split at h
    next e he => simp at h
    next m1 he =>
      have h1 := ih h (fun t ht => hw t (List.mem_cons_of_mem s ht))
      have h2 := execStmt_classAttr_frame he (hw s (List.mem_cons_self s rest))
      exact h1.trans h2

theorem execStmts_id {m : PyModule} {ss : List Stmt}
    (hall : ∀ s ∈ ss, stmtHolds m s) : execStmts m ss = Except.ok m := by
  induction ss with
  | nil => rfl
  | cons s rest ih =>
    have hs := execStmt_id (hall s (List.mem_cons_self s rest))
    simp only [execStmts, hs]
    exact ih (fun t ht => hall t (List.mem_cons_of_mem s ht))

/-! ### Relating the traced interpreter to the plain one -/

theorem execStmtsTr_of_execStmts {m m' : PyModule} {ss : List Stmt}
    (h : execStmts m ss = Except.ok m') :
    execStmtsTr m ss = Except.ok (m', ss.map stmtEvent) := by
  induction ss generalizing m with
  | nil =>
    simp [execStmts] at h
    subst h
    rfl
  | cons s rest ih =>
    unfold execStmts at h
    split at h
    next e he => simp at h
    next m1 he => simp only [execStmtsTr, he, ih h, List.map]

theorem execStmts_of_execStmtsTr {m m' : PyModule} {ss : List Stmt} {evs : List Event}
    (h : execStmtsTr m ss = Except.ok (m', evs)) :
    execStmts m ss = Except.ok m' ∧ evs = ss.map stmtEvent := by
  induction ss generalizing m evs with
  | nil =>
    simp only [execStmtsTr, Except.ok.injEq, Prod.mk.injEq] at h
    obtain ⟨h1, h2⟩ := h
    subst h1
    subst h2
    exact ⟨rfl, rfl⟩
  | cons s rest ih =>
    unfold execStmtsTr at h
    split at h
    next e he => simp at h
    next m1 he =>
      split at h
      next e he2 => simp at h
      next m2 evs2 he2 =>
        simp only [Except.ok.injEq, Prod.mk.injEq] at h
        obtain ⟨h1, h2⟩ := h
        subst h1
        obtain ⟨ha, hb⟩ := ih he2
        constructor
        · simp only [execStmts, he]
          exact ha
        · rw [← h2, hb]
          rfl

theorem execStmtsTr_error {m : PyModule} {ss : List Stmt} {e : String}
    (h : execStmts m ss = Except.error e) :
    execStmtsTr m ss = Except.error e := by
  induction ss generalizing m with
  | nil => simp [execStmts] at h
  | cons s rest ih =>
    unfold execStmts at h
    split at h
    next e2 he =>
      simp only [Except.error.injEq] at h
      subst h
      simp only [execStmtsTr, he]
    next m1 he => simp only [execStmtsTr, he, ih h]

/-! ### The shape of the script -/

theorem mem_script {s : Stmt} (h : s ∈ script) :
    (∃ p ∈ expectedFailureList, s = Stmt.setEF p.1 p.2) ∨ s = Stmt.setSkip skipClassName := by
  unfold script at h
  rcases List.mem_append.mp h with h1 | h2
  · obtain ⟨p, hp, hs⟩ := List.mem_map.mp h1
    exact Or.inl ⟨p, hp, hs.symm⟩
  · simp at h2
    exact Or.inr h2

theorem setEF_mem_script {p : String × String} (hp : p ∈ expectedFailureList) :
    Stmt.setEF p.1 p.2 ∈ script := by
  unfold script
  exact List.mem_append.mpr (Or.inl (List.mem_map.mpr ⟨p, hp, rfl⟩))

theorem setSkip_mem_script : Stmt.setSkip skipClassName ∈ script := by
  unfold script
  exact List.mem_append.mpr (Or.inr (List.mem_singleton.mpr rfl))

/-! ### Concrete modules for evaluation -/

/-- A model of the imported `descriptor_test` module: every class and method
the script touches, plus an untouched extra method and an untouched extra
class, all initially without marker attributes. -/
def sampleModule : PyModule := ⟨[
  ("DescriptorCopyToProtoTest", ⟨[], [("testCopyToProto_TypeError", ⟨[]⟩)]⟩),
  ("GeneratedDescriptorTest", ⟨[], [("testDescriptor", ⟨[]⟩)]⟩),
  ("MakeDescriptorTest", ⟨[], [("testCamelcaseName", ⟨[]⟩), ("testJsonName", ⟨[]⟩)]⟩),
  ("NewDescriptorTest", ⟨[], [
    ("testAggregateOptions", ⟨[]⟩),
    ("testComplexExtensionOptions", ⟨[]⟩),
    ("testContainingServiceFixups", ⟨[]⟩),
    ("testContainingTypeFixups", ⟨[]⟩),
    ("testCustomOptionsCopyTo", ⟨[]⟩),
    ("testDefault", ⟨[]⟩),
    ("testDifferentCustomOptionTypes", ⟨[]⟩),
    ("testEnumFixups", ⟨[]⟩),
    ("testEnumValueName", ⟨[]⟩),
    ("testFileDescriptor", ⟨[]⟩),
    ("testFileDescriptorReferences", ⟨[]⟩),
    ("testGetOptions", ⟨[]⟩),
    ("testImmutableCppDescriptor", ⟨[]⟩),
    ("testNestedOptions", ⟨[]⟩),
    ("testSimpleCustomOptions", ⟨[]⟩),
    ("testExtraPassing", ⟨[]⟩)]⟩),
  ("DescriptorTest", ⟨[], [("testByteSize", ⟨[]⟩)]⟩),
  ("ExtraTest", ⟨[], [("testExtra", ⟨[]⟩)]⟩)
]⟩

/-- The sample module after the script's patching phase. -/
def sampleModulePatched : PyModule :=
  ((applyDispositions sampleModule).toOption).getD sampleModule

/-- A sample module with the same classes and methods but with marker
attributes preset to arbitrary other values. -/
def sampleModuleDirty : PyModule := ⟨[
  ("DescriptorCopyToProtoTest", ⟨[("__unittest_skip__", false)],
    [("testCopyToProto_TypeError", ⟨[("__unittest_expecting_failure__", false)]⟩)]⟩),
  ("GeneratedDescriptorTest", ⟨[],
    [("testDescriptor", ⟨[("__unittest_expecting_failure__", true)]⟩)]⟩),
  ("MakeDescriptorTest", ⟨[], [("testCamelcaseName", ⟨[]⟩), ("testJsonName", ⟨[]⟩)]⟩),
  ("NewDescriptorTest", ⟨[], [
    ("testAggregateOptions", ⟨[("other_attr", true)]⟩),
    ("testComplexExtensionOptions", ⟨[]⟩),
    ("testContainingServiceFixups", ⟨[]⟩),
    ("testContainingTypeFixups", ⟨[]⟩),
    ("testCustomOptionsCopyTo", ⟨[]⟩),
    ("testDefault", ⟨[]⟩),
    ("testDifferentCustomOptionTypes", ⟨[]⟩),
    ("testEnumFixups", ⟨[]⟩),
    ("testEnumValueName", ⟨[]⟩),
    ("testFileDescriptor", ⟨[]⟩),
    ("testFileDescriptorReferences", ⟨[]⟩),
    ("testGetOptions", ⟨[]⟩),
    ("testImmutableCppDescriptor", ⟨[]⟩),
    ("testNestedOptions", ⟨[]⟩),
    ("testSimpleCustomOptions", ⟨[]⟩),
    ("testExtraPassing", ⟨[]⟩)]⟩),
  ("DescriptorTest", ⟨[("__unittest_skip__", false)], [("testByteSize", ⟨[]⟩)]⟩),
  ("ExtraTest", ⟨[], [("testExtra", ⟨[]⟩)]⟩)
]⟩

/-- The dirty sample module after the script's patching phase. -/
def sampleModuleDirtyPatched : PyModule :=
  ((applyDispositions sampleModuleDirty).toOption).getD sampleModuleDirty

/-- A module with no classes at all: every statement of the script misses its
target on it. -/
def emptyModule : PyModule := ⟨[]⟩

/-- The full event trace of a top-level run on a module patching succeeds on. -/
def mainRunEvents : List Event :=
  dispositionEvents ++ [Event.runTests 2]

/-! ### The claims -/

/-- Claim C1: after the patching step completes on the imported module, every
(class, method) pair in the expected-failure list carries
`__unittest_expecting_failure__ = True`; and provided the module did not
already carry that marker on any unlisted method — the imported
`descriptor_test` module does not — every other method of the module has the
marker unset or `False` afterwards. -/
theorem C1_expectedFailureMarkers (m m' : PyModule)
    (hok : applyDispositions m = Except.ok m')
    (hclean : ∀ c ∈ classNames m, ∀ meth ∈ methodNames m c,
      (c, meth) ∉ expectedFailureList →
      methodAttr m c meth markerEF = none ∨ methodAttr m c meth markerEF = some false) :
    (∀ p ∈ expectedFailureList, methodAttr m' p.1 p.2 markerEF = some true) ∧
    (∀ c ∈ classNames m', ∀ meth ∈ methodNames m' c,
      (c, meth) ∉ expectedFailureList →
      methodAttr m' c meth markerEF = none ∨ methodAttr m' c meth markerEF = some false) := by
  have hok' : execStmts m script = Except.ok m' := hok
  constructor
  · intro p hp
    exact execStmts_establishes hok' (Stmt.setEF p.1 p.2) (setEF_mem_script hp)
  · intro c hc meth hmeth hnot
    have hframe : methodAttr m' c meth markerEF = methodAttr m c meth markerEF := by
      apply execStmts_methodAttr_frame hok'
      intro s hs
      rcases mem_script hs with ⟨p, hp, rfl⟩ | rfl
      · intro hw
        obtain ⟨h1, h2, h3⟩ := hw
        refine hnot ?_
        rw [h1, h2]
        exact hp
      · intro hw
        exact hw
    rw [hframe]
    have hc' : c ∈ classNames m := by
      rw [← execStmts_classNames hok']
      exact hc
    have hmeth' : meth ∈ methodNames m c := by
      rw [← execStmts_methodNames hok' c]
      exact hmeth
    exact hclean c hc' meth hmeth' hnot

/-- Witness for C1: the claim's theorem applied to the concrete model of the
imported module, all hypotheses discharged by evaluation. -/
theorem C1_expectedFailureMarkers_witness :
    (∀ p ∈ expectedFailureList, methodAttr sampleModulePatched p.1 p.2 markerEF = some true) ∧
    (∀ c ∈ classNames sampleModulePatched, ∀ meth ∈ methodNames sampleModulePatched c,
      (c, meth) ∉ expectedFailureList →
      methodAttr sampleModulePatched c meth markerEF = none ∨
        methodAttr sampleModulePatched c meth markerEF = some false) :=
  C1_expectedFailureMarkers sampleModule sampleModulePatched (by rfl) (by decide)

/-- Claim C2: after patching, the designated class `DescriptorTest` carries
`__unittest_skip__ = True`; and provided no other class carried the skip
marker initially — the imported `descriptor_test` module's classes do not —
no other class has it set afterwards. -/
theorem C2_skipMarker (m m' : PyModule)
    (hok : applyDispositions m = Except.ok m')
    (hclean : ∀ c ∈ classNames m, c ≠ skipClassName → classAttr m c markerSkip = none) :
    classAttr m' skipClassName markerSkip = some true ∧
    (∀ c ∈ classNames m', c ≠ skipClassName → classAttr m' c markerSkip = none) := by
  have hok' : execStmts m script = Except.ok m' := hok
  constructor
  · exact execStmts_establishes hok' (Stmt.setSkip skipClassName) setSkip_mem_script
  · intro c hc hne
    have hframe : classAttr m' c markerSkip = classAttr m c markerSkip := by
      apply execStmts_classAttr_frame hok'
      intro s hs
      rcases mem_script hs with ⟨p, hp, rfl⟩ | rfl
      · intro hw
        exact hw
      · intro hw
        exact hne hw.1
    rw [hframe]
    have hc' : c ∈ classNames m := by
      rw [← execStmts_classNames hok']
      exact hc
    exact hclean c hc' hne

/-- Witness for C2: the claim's theorem applied to the concrete model of the
imported module, all hypotheses discharged by evaluation. -/
theorem C2_skipMarker_witness :
    classAttr sampleModulePatched skipClassName markerSkip = some true ∧
    (∀ c ∈ classNames sampleModulePatched, c ≠ skipClassName →
      classAttr sampleModulePatched c markerSkip = none) :=
  C2_skipMarker sampleModule sampleModulePatched (by rfl) (by decide)

/-- Claim C3: on every module state on which patching succeeds, applying the
patching operation a second time succeeds and returns exactly the same module
state, so patching twice equals patching once. -/
theorem C3_idempotent (m m' : PyModule)
    (hok : applyDispositions m = Except.ok m') :
    applyDispositions m' = Except.ok m' := by
  have hok' : execStmts m script = Except.ok m' := hok
  exact execStmts_id (execStmts_establishes hok')

/-- Witness for C3: the claim's theorem applied to the concrete model of the
imported module, the hypothesis discharged by evaluation. -/
theorem C3_idempotent_witness :
    applyDispositions sampleModulePatched = Except.ok sampleModulePatched :=
  C3_idempotent sampleModule sampleModulePatched (by rfl)

/-- Claim C4: when any statement of the disposition table refers to a class or
method missing from the imported module, the patching phase raises an
`AttributeError` (no entry is silently ignored), and the script as a whole
fails before the test runner ever starts. -/
theorem C4_missingTarget (m : PyModule) (runner : PyModule → Nat → Nat) (isMain : Bool)
    (hmiss : ∃ s ∈ script, stmtOk m s = false) :
    (∃ e, applyDispositions m = Except.error e) ∧
    ∃ e, mainGuard runner isMain m = Except.error e := by
  obtain ⟨s, hs, hbad⟩ := hmiss
  have herr : ∃ e, execStmts m script = Except.error e := by
    cases hres : execStmts m script with
    | ok m' =>
      have hall := execStmts_ok_all hres s hs
      rw [hbad] at hall
      simp at hall
    | error e => exact ⟨e, rfl⟩
  obtain ⟨e, he⟩ := herr
  refine ⟨⟨e, he⟩, ⟨e, ?_⟩⟩
  simp only [mainGuard, execStmtsTr_error he]

/-- Witness for C4: a module with no classes at all makes the very first
assignment raise, and the script never reaches the runner on it. -/
theorem C4_missingTarget_witness :
    (∃ e, applyDispositions emptyModule = Except.error e) ∧
    ∃ e, mainGuard (fun _ _ => 0) true emptyModule = Except.error e :=
  C4_missingTarget emptyModule (fun _ _ => 0) true (by decide)

/-- Claim C5: invoked as the top-level program on a module patching succeeds
on, the script starts the test runner (`unittest.main`) on the patched module
with verbosity 2, emits the run event after the patch events, and terminates
with exactly the exit code the runner produces there. -/
theorem C5_mainRunsVerbose (runner : PyModule → Nat → Nat) (m m' : PyModule)
    (hok : applyDispositions m = Except.ok m') :
    mainGuard runner true m =
      Except.ok (m', dispositionEvents ++ [Event.runTests 2], some (runner m' 2)) := by
  have hok' : execStmts m script = Except.ok m' := hok
  simp only [mainGuard, execStmtsTr_of_execStmts hok', dispositionEvents, if_true]

/-- Witness for C5: the claim's theorem applied to the concrete model of the
imported module and a constant runner, the hypothesis discharged by
evaluation. -/
theorem C5_mainRunsVerbose_witness :
    mainGuard (fun _ _ => 7) true sampleModule =
      Except.ok (sampleModulePatched, dispositionEvents ++ [Event.runTests 2], some 7) :=
  C5_mainRunsVerbose (fun _ _ => 7) sampleModule sampleModulePatched (by rfl)

/-- Claim C6: whenever the script completes, the final module state is the
fully patched one, every disposition of the table holds on it, the event trace
is all patch events followed (for a top-level run) by the single run event,
and in that trace every run event comes strictly after every patch event — the
runner never starts on a partially applied disposition table. -/
theorem C6_patchBeforeRun (runner : PyModule → Nat → Nat) (isMain : Bool)
    (m m' : PyModule) (evs : List Event) (ec : Option Nat)
    (hok : mainGuard runner isMain m = Except.ok (m', evs, ec)) :
    applyDispositions m = Except.ok m' ∧
    (∀ s ∈ script, stmtHolds m' s) ∧
    evs = dispositionEvents ++ (if isMain then [Event.runTests 2] else []) ∧
    (∀ i j : Fin evs.length, isRunEvent (evs.get i) = true →
      isRunEvent (evs.get j) = false → (j : Nat) < (i : Nat)) := by
  unfold mainGuard at hok
  split at hok
  next e he => simp at hok
  next m1 evs1 he =>
    obtain ⟨ha, hb⟩ := execStmts_of_execStmtsTr he
    cases isMain with
    | true =>
      simp only [if_true, Except.ok.injEq, Prod.mk.injEq] at hok
      obtain ⟨h1, h2, h3⟩ := hok
      subst h1
      refine ⟨ha, execStmts_establishes ha, ?_, ?_⟩
      · rw [← h2, hb]
        rfl
      · rw [← h2, hb]
        decide
    | false =>
      simp only [Bool.false_eq_true, if_false, Except.ok.injEq, Prod.mk.injEq] at hok
      obtain ⟨h1, h2, h3⟩ := hok
      subst h1
      refine ⟨ha, execStmts_establishes ha, ?_, ?_⟩
      · rw [← h2, hb]
        rfl
      · rw [← h2, hb]
        decide

/-- Witness for C6: the claim's theorem applied to a top-level run on the
concrete model of the imported module, the hypothesis discharged by
evaluation. -/
theorem C6_patchBeforeRun_witness :
    applyDispositions sampleModule = Except.ok sampleModulePatched ∧
    (∀ s ∈ script, stmtHolds sampleModulePatched s) ∧
    mainRunEvents = dispositionEvents ++ (if true then [Event.runTests 2] else []) ∧
    (∀ i j : Fin mainRunEvents.length, isRunEvent (mainRunEvents.get i) = true →
      isRunEvent (mainRunEvents.get j) = false → (j : Nat) < (i : Nat)) :=
  C6_patchBeforeRun (fun _ _ => 7) true sampleModule sampleModulePatched
    mainRunEvents (some 7) (by rfl)

/-- Claim C7: patching returns no value beyond the mutated module, and its
only effect is on the listed markers — it preserves the set of classes, the
set of methods of every class, every class attribute other than
`__unittest_skip__` on `DescriptorTest`, and every method attribute other than
`__unittest_expecting_failure__` on the listed (class, method) pairs. -/
theorem C7_frameEffect (m m' : PyModule)
    (hok : applyDispositions m = Except.ok m') :
    classNames m' = classNames m ∧
    (∀ c, methodNames m' c = methodNames m c) ∧
    (∀ c a, ¬(c = skipClassName ∧ a = markerSkip) → classAttr m' c a = classAttr m c a) ∧
    (∀ c meth a, ¬((c, meth) ∈ expectedFailureList ∧ a = markerEF) →
      methodAttr m' c meth a = methodAttr m c meth a) := by
  have hok' : execStmts m script = Except.ok m' := hok
  refine ⟨execStmts_classNames hok', fun c => execStmts_methodNames hok' c, ?_, ?_⟩
  · intro c a hne
    apply execStmts_classAttr_frame hok'
    intro s hs
    rcases mem_script hs with ⟨p, hp, rfl⟩ | rfl
    · intro hw
      exact hw
    · intro hw
      exact hne ⟨hw.1, hw.2⟩
  · intro c meth a hne
    apply execStmts_methodAttr_frame hok'
    intro s hs
    rcases mem_script hs with ⟨p, hp, rfl⟩ | rfl
    · intro hw
      obtain ⟨h1, h2, h3⟩ := hw
      refine hne ⟨?_, h3⟩
      rw [h1, h2]
      exact hp
    · intro hw
      exact hw

/-- Witness for C7: the claim's theorem applied to the concrete model of the
imported module, the hypothesis discharged by evaluation. -/
theorem C7_frameEffect_witness :
    classNames sampleModulePatched = classNames sampleModule ∧
    (∀ c, methodNames sampleModulePatched c = methodNames sampleModule c) ∧
    (∀ c a, ¬(c = skipClassName ∧ a = markerSkip) →
      classAttr sampleModulePatched c a = classAttr sampleModule c a) ∧
    (∀ c meth a, ¬((c, meth) ∈ expectedFailureList ∧ a = markerEF) →
      methodAttr sampleModulePatched c meth a = methodAttr sampleModule c meth a) :=
  C7_frameEffect sampleModule sampleModulePatched (by rfl)

/-- Claim C8: the disposition table is mutually exclusive — the skipped class
`DescriptorTest` owns none of the expected-failure pairs — and therefore,
provided its methods did not carry the expected-failure marker to begin with,
after patching the skipped class carries the skip marker while none of its
methods carries the expected-failure marker: no test object ends up with both
dispositions. -/
theorem C8_dispositionsDisjoint (m m' : PyModule)
    (hok : applyDispositions m = Except.ok m')
    (hclean : ∀ meth ∈ methodNames m skipClassName,
      methodAttr m skipClassName meth markerEF = none ∨
      methodAttr m skipClassName meth markerEF = some false) :
    (∀ p ∈ expectedFailureList, p.1 ≠ skipClassName) ∧
    classAttr m' skipClassName markerSkip = some true ∧
    (∀ meth ∈ methodNames m' skipClassName,
      methodAttr m' skipClassName meth markerEF ≠ some true) := by
  have hok' : execStmts m script = Except.ok m' := hok
  have hdisj : ∀ p ∈ expectedFailureList, p.1 ≠ skipClassName := by decide
  refine ⟨hdisj,
    execStmts_establishes hok' (Stmt.setSkip skipClassName) setSkip_mem_script, ?_⟩
  intro meth hmeth
  have hframe : methodAttr m' skipClassName meth markerEF =
      methodAttr m skipClassName meth markerEF := by
    apply execStmts_methodAttr_frame hok'
    intro s hs
    rcases mem_script hs with ⟨p, hp, rfl⟩ | rfl
    · intro hw
      obtain ⟨h1, h2, h3⟩ := hw
      exact hdisj p hp h1.symm
    · intro hw
      exact hw
  rw [hframe]
  have hmeth' : meth ∈ methodNames m skipClassName := by
    rw [← execStmts_methodNames hok' skipClassName]
    exact hmeth
  rcases hclean meth hmeth' with h | h
  · rw [h]
    simp
  · rw [h]
    simp

/-- Witness for C8: the claim's theorem applied to the concrete model of the
imported module, all hypotheses discharged by evaluation. -/
theorem C8_dispositionsDisjoint_witness :
    (∀ p ∈ expectedFailureList, p.1 ≠ skipClassName) ∧
    classAttr sampleModulePatched skipClassName markerSkip = some true ∧
    (∀ meth ∈ methodNames sampleModulePatched skipClassName,
      methodAttr sampleModulePatched skipClassName meth markerEF ≠ some true) :=
  C8_dispositionsDisjoint sampleModule sampleModulePatched (by rfl) (by decide)

/-- Claim C9: patching is a constant assignment that never reads prior marker
state — starting from any two module states on which it succeeds, however
their markers were preset, it leaves identical final marker values on every
listed target. -/
theorem C9_constantAssignment (m₁ m₂ m₁' m₂' : PyModule)
    (h₁ : applyDispositions m₁ = Except.ok m₁')
    (h₂ : applyDispositions m₂ = Except.ok m₂') :
    (∀ p ∈ expectedFailureList,
      methodAttr m₁' p.1 p.2 markerEF = methodAttr m₂' p.1 p.2 markerEF) ∧
    classAttr m₁' skipClassName markerSkip = classAttr m₂' skipClassName markerSkip := by
  have h₁' : execStmts m₁ script = Except.ok m₁' := h₁
  have h₂' : execStmts m₂ script = Except.ok m₂' := h₂
  constructor
  · intro p hp
    have e1 : methodAttr m₁' p.1 p.2 markerEF = some true :=
      execStmts_establishes h₁' (Stmt.setEF p.1 p.2) (setEF_mem_script hp)
    have e2 : methodAttr m₂' p.1 p.2 markerEF = some true :=
      execStmts_establishes h₂' (Stmt.setEF p.1 p.2) (setEF_mem_script hp)
    rw [e1, e2]
  · have e1 : classAttr m₁' skipClassName markerSkip = some true :=
      execStmts_establishes h₁' (Stmt.setSkip skipClassName) setSkip_mem_script
    have e2 : classAttr m₂' skipClassName markerSkip = some true :=
      execStmts_establishes h₂' (Stmt.setSkip skipClassName) setSkip_mem_script
    rw [e1, e2]

/-- Witness for C9: the claim's theorem applied to two concrete models of the
imported module whose markers start at different values, both hypotheses
discharged by evaluation. -/
theorem C9_constantAssignment_witness :
    (∀ p ∈ expectedFailureList,
      methodAttr sampleModulePatched p.1 p.2 markerEF =
        methodAttr sampleModuleDirtyPatched p.1 p.2 markerEF) ∧
    classAttr sampleModulePatched skipClassName markerSkip =
      classAttr sampleModuleDirtyPatched skipClassName markerSkip :=
  C9_constantAssignment sampleModule sampleModuleDirty sampleModulePatched
    sampleModuleDirtyPatched (by rfl) (by rfl)

/-- Claim C10: importing the wrapper module without invoking it as the
top-level program still applies every disposition, but produces no exit code
and no run event — no test executes as a side effect of import. -/
theorem C10_importNoRun (runner : PyModule → Nat → Nat) (m m' : PyModule)
    (evs : List Event) (ec : Option Nat)
    (hok : mainGuard runner false m = Except.ok (m', evs, ec)) :
    applyDispositions m = Except.ok m' ∧
    (∀ s ∈ script, stmtHolds m' s) ∧
    ec = none ∧
    ∀ e ∈ evs, isRunEvent e = false := by
  unfold mainGuard at hok
  split at hok
  next e he => simp at hok
  next m1 evs1 he =>
    obtain ⟨ha, hb⟩ := execStmts_of_execStmtsTr he
    simp only [Bool.false_eq_true, if_false, Except.ok.injEq, Prod.mk.injEq] at hok
    obtain ⟨h1, h2, h3⟩ := hok
    subst h1
    refine ⟨ha, execStmts_establishes ha, h3.symm, ?_⟩
    intro e hev
    rw [← h2, hb] at hev
    obtain ⟨s, hs, rfl⟩ := List.mem_map.mp hev
    cases s with
    | setEF c meth => rfl
    | setSkip c => rfl

/-- Witness for C10: the claim's theorem applied to a non-top-level import of
the concrete model of the imported module, the hypothesis discharged by
evaluation. -/
theorem C10_importNoRun_witness :
    applyDispositions sampleModule = Except.ok sampleModulePatched ∧
    (∀ s ∈ script, stmtHolds sampleModulePatched s) ∧
    (none : Option Nat) = none ∧
    ∀ e ∈ dispositionEvents, isRunEvent e = false :=
  C10_importNoRun (fun _ _ => 7) sampleModule sampleModulePatched
    dispositionEvents none (by rfl)

end DescriptorTestWrapper
